import Mathlib

/-!
Shallow embedding of `src/backend/main.py` (Tetra360/web-cam-app), a Flask
webcam-streaming server with an optional object-detection overlay.

The Python module keeps its state in module-level globals
(`OBJECT_DETECTION_AVAILABLE`, `camera`, `is_streaming`,
`object_detection_model`, `object_detection_enabled`); we model them as an
explicit `AppState` record threaded through every operation.

External effects are modelled as explicit environment parameters:
- `installed : Bool` — whether `from ultralytics import YOLO` succeeds
  (line 30 of the source);
- `loadResult : Option Nat` — the outcome of `YOLO(model_path)` (line 55):
  `some m` is a successfully constructed model object, `none` is a raised
  exception;
- `openResult : Option Nat` — the outcome of `cv2.VideoCapture(0)` followed by
  `isOpened()` (lines 68-69): `some c` is an opened capture handle, `none`
  means the device failed to open;
- per-iteration `IterEnv` records for the frame-production generator
  `generate_frames` (the observed `is_streaming` flag, the camera read, the
  inference outcome and the JPEG-encode outcome of that iteration).

Camera handles, frames and model objects are abstracted as `Nat` identifiers;
the claims under verification only ever compare them for identity.
-/

deriving instance DecidableEq for Except

namespace WebCamApp

/-- The module-level mutable globals of `main.py` (lines 8, 15-19).
`OBJECT_DETECTION_AVAILABLE` is the Python tri-state
`None / True / False`, modelled as `Option Bool`. -/
structure AppState where
  OBJECT_DETECTION_AVAILABLE : Option Bool
  camera : Option Nat
  is_streaming : Bool
  object_detection_model : Option Nat
  object_detection_enabled : Bool
deriving DecidableEq, Repr

/-- The state of the globals right after module import (lines 8, 15-19):
availability unknown, no camera handle, not streaming, no model, detection
disabled. -/
def initialState : AppState :=
  { OBJECT_DETECTION_AVAILABLE := none
    camera := none
    is_streaming := false
    object_detection_model := none
    object_detection_enabled := false }

/-- Result of `check_ultralytics_availability` (lines 21-38): the returned
boolean, the updated globals, and the number of underlying availability
checks (import attempts) this call actually performed (0 or 1). -/
structure CheckResult where
  avail : Bool
  state : AppState
  checks : Nat
deriving DecidableEq, Repr

/-- `check_ultralytics_availability()` (lines 21-38). If
`OBJECT_DETECTION_AVAILABLE` is not `None` the cached value is returned with
no state change and no import attempt. Otherwise the import of `ultralytics`
is attempted (its success is the environment parameter `installed`) and the
tri-state cache is set to the outcome. -/
def check_ultralytics_availability (installed : Bool) (s : AppState) : CheckResult :=
  match s.OBJECT_DETECTION_AVAILABLE with
  | some avail => { avail := avail, state := s, checks := 0 }
  | none =>
    if installed then
      { avail := true, state := { s with OBJECT_DETECTION_AVAILABLE := some true }, checks := 1 }
    else
      { avail := false, state := { s with OBJECT_DETECTION_AVAILABLE := some false }, checks := 1 }

/-- Result of `initialize_object_detection_model` (lines 40-61): the returned
boolean, the updated globals, and the number of underlying availability
checks performed. -/
structure InitResult where
  ok : Bool
  state : AppState
  checks : Nat
deriving DecidableEq, Repr

/-- `initialize_object_detection_model()` (lines 40-61). First consults
`check_ultralytics_availability`; on unavailability returns `False`. Then
attempts `YOLO(model_path)` — the environment parameter `loadResult` is its
outcome: on success (line 55-57) the model global is set and `True` is
returned; on an exception (lines 58-61) the model global is set to `None`
and `False` is returned. A failure is not cached anywhere except in the
still-`None` model global. -/
def initialize_object_detection_model (installed : Bool) (loadResult : Option Nat)
    (s : AppState) : InitResult :=
  let c := check_ultralytics_availability installed s
  if c.avail then
    match loadResult with
    | some m =>
      { ok := true, state := { c.state with object_detection_model := some m }, checks := c.checks }
    | none =>
      { ok := false, state := { c.state with object_detection_model := none }, checks := c.checks }
  else
    { ok := false, state := c.state, checks := c.checks }

/-- Result of `get_camera` (lines 63-72): the returned handle (or `None`),
the updated globals, and the number of physical open attempts
(`cv2.VideoCapture(0)` calls) this call performed (0 or 1). -/
structure CamResult where
  cam : Option Nat
  state : AppState
  attempts : Nat
deriving DecidableEq, Repr

/-- `get_camera()` (lines 63-72). Under the camera lock: if no handle exists,
attempts one physical open (whose outcome is the environment parameter
`openResult`); on failure the global is reset to `None`. If a handle already
exists it is returned unchanged with no open attempt. The lock itself is not
modelled: every call site runs the body atomically. -/
def get_camera (openResult : Option Nat) (s : AppState) : CamResult :=
  match s.camera with
  | some c => { cam := some c, state := s, attempts := 0 }
  | none =>
    match openResult with
    | some c => { cam := some c, state := { s with camera := some c }, attempts := 1 }
    | none => { cam := none, state := { s with camera := none }, attempts := 1 }

/-- A JSON response of the shape `{'status': ...}` (lines 138, 140, 149, 151). -/
structure JsonStatus where
  status : String
deriving DecidableEq, Repr

/-- A JSON response of the shape `{'status': ..., 'message': ...}`
(lines 160, 167, 170, 174, 182). -/
structure JsonStatusMsg where
  status : String
  message : String
deriving DecidableEq, Repr

/-- `start_stream()` (lines 131-140): if not streaming, sets the flag and
reports `started`; otherwise reports `already_streaming` with no state
change. -/
def start_stream (s : AppState) : JsonStatus × AppState :=
  if s.is_streaming then
    ({ status := "already_streaming" }, s)
  else
    ({ status := "started" }, { s with is_streaming := true })

/-- `stop_stream()` (lines 142-151): if streaming, clears the flag and
reports `stopped`; otherwise reports `already_stopped` with no state
change. -/
def stop_stream (s : AppState) : JsonStatus × AppState :=
  if s.is_streaming then
    ({ status := "stopped" }, { s with is_streaming := false })
  else
    ({ status := "already_stopped" }, s)

/-- Result of `enable_object_detection` (lines 153-174): the JSON response,
the updated globals, and the total number of underlying availability checks
performed during the request. -/
structure EnableResult where
  resp : JsonStatusMsg
  state : AppState
  checks : Nat
deriving DecidableEq, Repr

/-- `enable_object_detection()` (lines 153-174). Consults the capability
gate; on unavailability returns a structured error. If no model is loaded,
calls `initialize_object_detection_model` (which consults the — by now
cached — gate again): on success sets the enabled flag and reports
`enabled`; on failure reports `error` and leaves the enabled flag untouched.
If a model is already loaded, sets the enabled flag and reports `enabled`. -/
def enable_object_detection (installed : Bool) (loadResult : Option Nat)
    (s : AppState) : EnableResult :=
  let c := check_ultralytics_availability installed s
  if c.avail then
    match c.state.object_detection_model with
    | none =>
      let i := initialize_object_detection_model installed loadResult c.state
      if i.ok then
        { resp := { status := "enabled", message := "物体検出を有効にしました（モデル読み込み完了）" }
          state := { i.state with object_detection_enabled := true }
          checks := c.checks + i.checks }
      else
        { resp := { status := "error", message := "物体検出モデルの読み込みに失敗しました" }
          state := i.state
          checks := c.checks + i.checks }
    | some _ =>
      { resp := { status := "enabled", message := "物体検出を有効にしました" }
        state := { c.state with object_detection_enabled := true }
        checks := c.checks }
  else
    { resp := { status := "error", message := "ultralyticsがインストールされていません" }
      state := c.state
      checks := c.checks }

/-- `disable_object_detection()` (lines 176-182): unconditionally clears the
enabled flag and reports `disabled`. -/
def disable_object_detection (s : AppState) : JsonStatusMsg × AppState :=
  ({ status := "disabled", message := "物体検出を無効にしました" },
   { s with object_detection_enabled := false })

/-- The JSON body returned by `/health` (lines 187-191). -/
structure HealthResponse where
  status : String
  object_detection_available : Bool
  streaming : Bool
deriving DecidableEq, Repr

/-- Result of `health` (lines 184-191): the JSON response, the (unchanged)
globals, and the number of underlying availability checks performed (the
handler never calls `check_ultralytics_availability`, so this is 0). -/
structure HealthResult where
  resp : HealthResponse
  state : AppState
  checks : Nat
deriving DecidableEq, Repr

/-- `health()` (lines 184-191): reads the globals without modifying them.
`object_detection_available` is the cached tri-state with `None` reported
as `False` (line 189). -/
def health (s : AppState) : HealthResult :=
  { resp := { status := "healthy"
              object_detection_available := s.OBJECT_DETECTION_AVAILABLE.getD false
              streaming := s.is_streaming }
    state := s
    checks := 0 }

/-- The JSON body returned by `/object_detection_status` (lines 202-206). -/
structure DetectionStatusInfo where
  available : Bool
  enabled : Bool
  model_loaded : Bool
deriving DecidableEq, Repr

/-- Result of `object_detection_status` (lines 193-208). -/
structure DetStatusResult where
  resp : DetectionStatusInfo
  state : AppState
  checks : Nat
deriving DecidableEq, Repr

/-- `object_detection_status()` (lines 193-208): if the tri-state is still
unknown it runs the capability probe once, then reports availability
(with `None` as `False`), the enabled flag and whether a model is loaded. -/
def object_detection_status (installed : Bool) (s : AppState) : DetStatusResult :=
  let c :=
    match s.OBJECT_DETECTION_AVAILABLE with
    | none => check_ultralytics_availability installed s
    | some avail => { avail := avail, state := s, checks := 0 }
  { resp := { available := c.state.OBJECT_DETECTION_AVAILABLE.getD false
              enabled := c.state.object_detection_enabled
              model_loaded := c.state.object_detection_model.isSome }
    state := c.state
    checks := c.checks }

/-- One multipart chunk yielded by the server (lines 109-110):
`--frame\r\nContent-Type: image/jpeg\r\n\r\n<jpeg bytes>\r\n`. The boundary
and content-type are fixed; `payload` identifies the frame whose JPEG
encoding forms the body bytes. -/
structure FrameChunk where
  payload : Nat
deriving DecidableEq, Repr

/-- The per-iteration environment of the `generate_frames` loop
(lines 86-112): the value of the shared `is_streaming` flag observed at the
top of the iteration (it may be cleared concurrently by `/stop_stream`), the
outcome of a physical camera open should one be needed, the outcome of
`cap.read()` (`some f` delivers frame `f`, `none` is a failed read), the
outcome of running the model on the frame (`Except.ok a` is the annotated
rendering `results[0].plot()`, `Except.error` a raised exception), and
whether `cv2.imencode` succeeds. -/
structure IterEnv where
  streaming : Bool
  openResult : Option Nat
  readResult : Option Nat
  inferResult : Except String Nat
  encodeOk : Bool
deriving DecidableEq, Repr

/-- What one iteration of the `generate_frames` loop does: exit the loop,
yield a chunk and continue, or (on a failed encode, line 107) yield nothing
and continue. -/
inductive IterOut
  | stop
  | emit (c : FrameChunk)
  | skip
deriving DecidableEq, Repr

/-- Result of one iteration of the `generate_frames` loop: the control
outcome, the updated globals, and whether model inference was invoked
(line 99) during the iteration. -/
structure IterResult where
  out : IterOut
  state : AppState
  inferInvoked : Bool
deriving DecidableEq, Repr

/-- One iteration of the `generate_frames` loop body (lines 86-112). If the
observed `is_streaming` is false the `while` exits. Camera acquisition
failure or a failed read `break`s. If the enabled flag is set and a model is
loaded, inference runs: on success the frame is replaced by the annotated
rendering, on an exception the exception is caught (lines 102-103) and the
original frame is kept. The frame is then JPEG-encoded and yielded when the
encode succeeds. -/
def generate_frames_iter (e : IterEnv) (s : AppState) : IterResult :=
  if e.streaming then
    let c := get_camera e.openResult s
    match c.cam with
    | none => { out := IterOut.stop, state := c.state, inferInvoked := false }
    | some _ =>
      match e.readResult with
      | none => { out := IterOut.stop, state := c.state, inferInvoked := false }
      | some frame =>
        let inferred :=
          if c.state.object_detection_enabled && c.state.object_detection_model.isSome then
            match e.inferResult with
            | Except.ok a => (a, true)
            | Except.error _ => (frame, true)
          else (frame, false)
        if e.encodeOk then
          { out := IterOut.emit { payload := inferred.1 }, state := c.state,
            inferInvoked := inferred.2 }
        else
          { out := IterOut.skip, state := c.state, inferInvoked := inferred.2 }
  else { out := IterOut.stop, state := s, inferInvoked := false }

/-- Result of running the `generate_frames` generator against a finite list
of per-iteration environments: the chunks yielded, the final globals, and
whether the loop terminated of its own accord (`stopped = true`) before the
supplied environments ran out. `stopped = false` means the loop was still
running after consuming every supplied environment. -/
structure LoopResult where
  chunks : List FrameChunk
  state : AppState
  stopped : Bool
deriving DecidableEq, Repr

/-- `generate_frames()` (lines 82-112) run against a finite schedule of
per-iteration environments. The real generator is potentially infinite; a
schedule of length n observes its first n iterations. -/
def generate_frames : List IterEnv → AppState → LoopResult
  | [], s => { chunks := [], state := s, stopped := false }
  | e :: es, s =>
    match (generate_frames_iter e s).out with
    | IterOut.stop =>
      { chunks := [], state := (generate_frames_iter e s).state, stopped := true }
    | IterOut.emit c =>
      { chunks := c :: (generate_frames es (generate_frames_iter e s).state).chunks
        state := (generate_frames es (generate_frames_iter e s).state).state
        stopped := (generate_frames es (generate_frames_iter e s).state).stopped }
    | IterOut.skip => generate_frames es (generate_frames_iter e s).state

/-- A raised Python exception, as far as this embedding needs one. -/
inductive PyError
  | attributeError (attr : String)
deriving DecidableEq, Repr

/-- Modelling the expression `cv2.zeros((480, 640, 3), dtype='uint8')` at
line 121 of the source. The OpenCV Python module `cv2` does not define an
attribute named `zeros` — zero-filled array creation is `numpy.zeros`, and
`numpy` is not imported anywhere in `main.py` — so evaluating the attribute
lookup `cv2.zeros` raises `AttributeError` before any image is created. -/
def cv2_zeros (_height _width _channels : Nat) : Except PyError Nat :=
  .error (PyError.attributeError "zeros")

/-- `video_feed()` (lines 114-129). When not streaming, the handler tries to
build a single all-black placeholder chunk via `cv2.zeros` (line 121) —
which raises — and would otherwise return a one-chunk multipart body. When
streaming, it returns the `generate_frames` generator. -/
def video_feed (envs : List IterEnv) (s : AppState) : Except PyError LoopResult :=
  if s.is_streaming then
    .ok (generate_frames envs s)
  else
    match cv2_zeros 480 640 3 with
    | Except.error err => .error err
    | Except.ok black =>
      .ok { chunks := [{ payload := black }], state := s, stopped := true }

/-- A streaming request as seen by the start/stop state machine. -/
inductive StreamReq
  | start
  | stop
deriving DecidableEq, Repr

/-- Dispatches one start/stop request to its handler. -/
def streamStep (r : StreamReq) (s : AppState) : JsonStatus × AppState :=
  match r with
  | StreamReq.start => start_stream s
  | StreamReq.stop => stop_stream s

/-- One observed step of a start/stop request sequence: the request, the
`is_streaming` flag before it, the reported status, and the flag after it. -/
structure StreamTraceEntry where
  req : StreamReq
  pre : Bool
  status : String
  post : Bool
deriving DecidableEq, Repr

/-- The observed trace of a sequence of start/stop requests. -/
def streamTrace : List StreamReq → AppState → List StreamTraceEntry
  | [], _ => []
  | r :: rs, s =>
    { req := r
      pre := s.is_streaming
      status := (streamStep r s).1.status
      post := (streamStep r s).2.is_streaming }
      :: streamTrace rs (streamStep r s).2

/-- The transition/report table of the {Idle, Streaming} state machine:
`pre = false` is Idle, `pre = true` is Streaming. -/
def entryMatchesMachine (e : StreamTraceEntry) : Bool :=
  match e.req, e.pre with
  | StreamReq.start, false => e.status == "started" && e.post == true
  | StreamReq.start, true => e.status == "already_streaming" && e.post == true
  | StreamReq.stop, true => e.status == "stopped" && e.post == false
  | StreamReq.stop, false => e.status == "already_stopped" && e.post == false

/-- An HTTP request to one of the state-touching endpoints, with the
environment outcomes the handler may consume. -/
inductive Op
  | startStream
  | stopStream
  | enableDetection (installed : Bool) (loadResult : Option Nat)
  | disableDetection
  | healthCheck
  | detectionStatus (installed : Bool)
  | videoFeedConn (envs : List IterEnv)
deriving DecidableEq, Repr

/-- The state transition and underlying-availability-check count of one
request. -/
def opStep : Op → AppState → AppState × Nat
  | Op.startStream, s => ((start_stream s).2, 0)
  | Op.stopStream, s => ((stop_stream s).2, 0)
  | Op.enableDetection installed loadResult, s =>
    let r := enable_object_detection installed loadResult s
    (r.state, r.checks)
  | Op.disableDetection, s => ((disable_object_detection s).2, 0)
  | Op.healthCheck, s => ((health s).state, (health s).checks)
  | Op.detectionStatus installed, s =>
    let r := object_detection_status installed s
    (r.state, r.checks)
  | Op.videoFeedConn envs, s =>
    match video_feed envs s with
    | Except.error _ => (s, 0)
    | Except.ok r => (r.state, 0)

/-- Runs a sequence of requests, returning the final state and the total
number of underlying availability checks performed across the run. -/
def runOps : List Op → AppState → AppState × Nat
  | [], s => (s, 0)
  | op :: ops, s =>
    ((runOps ops (opStep op s).1).1, (opStep op s).2 + (runOps ops (opStep op s).1).2)

/-- An iteration environment in which the loop has everything it needs to
keep producing: the streaming flag still holds, a camera open would succeed
if attempted, and the read delivers a frame. -/
def envKeepsGoing (e : IterEnv) : Bool :=
  e.streaming && e.openResult.isSome && e.readResult.isSome

/-- A state in which the capability probe has already succeeded. -/
def probedState : AppState :=
  { initialState with OBJECT_DETECTION_AVAILABLE := some true }

/-- A state holding a camera handle. -/
def stateWithCamera : AppState :=
  { initialState with camera := some 7 }

/-- A state mid-stream with detection enabled and a model loaded. -/
def readyState : AppState :=
  { OBJECT_DETECTION_AVAILABLE := some true
    camera := none
    is_streaming := true
    object_detection_model := some 5
    object_detection_enabled := true }

/-- An iteration environment in which everything succeeds. -/
def goodEnv : IterEnv :=
  { streaming := true
    openResult := some 0
    readResult := some 11
    inferResult := Except.ok 12
    encodeOk := true }

/-- An iteration environment in which inference raises an exception but
everything else succeeds. -/
def failingInferEnv : IterEnv :=
  { streaming := true
    openResult := some 0
    readResult := some 11
    inferResult := Except.error "boom"
    encodeOk := true }

/-! ## Helper lemmas -/

/-- `get_camera` never touches the capability tri-state. -/
theorem get_camera_avail (o : Option Nat) (s : AppState) :
    (get_camera o s).state.OBJECT_DETECTION_AVAILABLE = s.OBJECT_DETECTION_AVAILABLE := by
  unfold get_camera
  cases h : s.camera <;> cases o <;> simp [h]

/-- `get_camera` never touches the detection-enabled flag. -/
theorem get_camera_enabled (o : Option Nat) (s : AppState) :
    (get_camera o s).state.object_detection_enabled = s.object_detection_enabled := by
  unfold get_camera
  cases h : s.camera <;> cases o <;> simp [h]

/-- `get_camera` never touches the loaded model. -/
theorem get_camera_model (o : Option Nat) (s : AppState) :
    (get_camera o s).state.object_detection_model = s.object_detection_model := by
  unfold get_camera
  cases h : s.camera <;> cases o <;> simp [h]

/-- `get_camera` yields a handle exactly when one already existed or the
open succeeds. -/
theorem get_camera_cam (o : Option Nat) (s : AppState) :
    (get_camera o s).cam.isSome = (s.camera.isSome || o.isSome) := by
  unfold get_camera
  cases h : s.camera <;> cases o <;> simp [h]

/-- One loop iteration never touches the capability tri-state. -/
theorem generate_frames_iter_avail (e : IterEnv) (s : AppState) :
    (generate_frames_iter e s).state.OBJECT_DETECTION_AVAILABLE
      = s.OBJECT_DETECTION_AVAILABLE := by
  unfold generate_frames_iter
  cases hst : e.streaming
  · rfl
  · cases hc : (get_camera e.openResult s).cam <;>
      cases hr : e.readResult <;>
      cases he : e.encodeOk <;>
      simp [hc, hr, he, get_camera_avail]

/-- The frame loop never touches the capability tri-state. -/
theorem generate_frames_avail (envs : List IterEnv) (s : AppState) :
    (generate_frames envs s).state.OBJECT_DETECTION_AVAILABLE
      = s.OBJECT_DETECTION_AVAILABLE := by
  induction envs generalizing s with
  | nil => rfl
  | cons e es ih =>
    unfold generate_frames
    cases h : (generate_frames_iter e s).out <;>
      simp [h, ih, generate_frames_iter_avail]

/-- A loop iteration with the flag held, a camera handle obtainable and a
successful read does not exit the loop. -/
theorem generate_frames_iter_not_stop (e : IterEnv) (s : AppState)
    (hst : e.streaming = true)
    (hcam : (get_camera e.openResult s).cam.isSome = true)
    (hrd : e.readResult.isSome = true) :
    (generate_frames_iter e s).out ≠ IterOut.stop := by
  obtain ⟨c, hc⟩ := Option.isSome_iff_exists.mp hcam
  obtain ⟨f, hf⟩ := Option.isSome_iff_exists.mp hrd
  unfold generate_frames_iter
  cases he : e.encodeOk <;> simp [hst, hc, hf, he]

/-- A loop iteration exits the loop exactly when the streaming flag is
cleared, camera acquisition fails, or the frame read fails. -/
theorem generate_frames_iter_stop_iff (e : IterEnv) (s : AppState) :
    (generate_frames_iter e s).out = IterOut.stop ↔
      (e.streaming = false ∨ (s.camera.isSome || e.openResult.isSome) = false ∨
        e.readResult = none) := by
  have hcam := get_camera_cam e.openResult s
  cases hst : e.streaming
  · simp [generate_frames_iter, hst]
  · cases hc : (get_camera e.openResult s).cam
    · rw [hc] at hcam
      simp [generate_frames_iter, hst, hc, ← hcam]
    · rw [hc] at hcam
      cases hr : e.readResult
      · simp [generate_frames_iter, hst, hc, hr, ← hcam]
      · cases he : e.encodeOk <;>
          simp [generate_frames_iter, hst, hc, hr, he, ← hcam]

/-- While every scheduled iteration keeps the flag, the camera and the read
healthy, the loop does not terminate. -/
theorem generate_frames_all_good (envs : List IterEnv) (s : AppState)
    (h : envs.all envKeepsGoing = true) :
    (generate_frames envs s).stopped = false := by
  induction envs generalizing s with
  | nil => rfl
  | cons e es ih =>
    rw [List.all_cons, Bool.and_eq_true] at h
    obtain ⟨he, hes⟩ := h
    unfold envKeepsGoing at he
    rw [Bool.and_eq_true, Bool.and_eq_true] at he
    obtain ⟨⟨hst, hop⟩, hrd⟩ := he
    have hcam : (get_camera e.openResult s).cam.isSome = true := by
      rw [get_camera_cam, hop, Bool.or_true]
    have hns := generate_frames_iter_not_stop e s hst hcam hrd
    unfold generate_frames
    cases hout : (generate_frames_iter e s).out with
    | stop => exact absurd hout hns
    | emit c => simp [ih _ hes]
    | skip => simp [ih _ hes]

/-! ## Claim theorems -/

/-- C1: the streaming state machine over {Idle, Streaming} is driven only by
start/stop requests. For every sequence of `start_stream`/`stop_stream`
calls from every starting state, every step of the observed trace matches
the machine: a start in Idle moves to Streaming reporting `started`; a start
while Streaming reports `already_streaming` and leaves the state unchanged;
a stop while Streaming moves to Idle reporting `stopped`; a stop in Idle
reports `already_stopped` and leaves the state unchanged. -/
theorem stream_state_machine (reqs : List StreamReq) (s : AppState) :
    (streamTrace reqs s).all entryMatchesMachine = true := by
  induction reqs generalizing s with
  | nil => rfl
  | cons r rs ih =>
    cases r <;> cases hs : s.is_streaming <;>
      simp [streamTrace, streamStep, start_stream, stop_stream, entryMatchesMachine, hs, ih]

/-- C2 (code bug): on a `/video_feed` connection while streaming is not
active, the handler does not deliver the all-black placeholder chunk —
evaluating `cv2.zeros` at line 121 raises `AttributeError` (the `cv2`
module has no `zeros` attribute; `numpy.zeros` was intended and `numpy` is
not imported), so the request errors out instead of yielding one chunk. -/
theorem video_feed_idle_attribute_error :
    video_feed [] initialState = Except.error (PyError.attributeError "zeros") := rfl

/-- C6: camera acquisition. When no handle exists and the open fails,
`get_camera` returns an absent result and leaves the state with no handle
(and does not raise — it is a total function returning `none`); when a
handle already exists, it returns that same handle with the state unchanged
and performs no physical open attempt. -/
theorem get_camera_contract :
    (∀ s : AppState, s.camera = none →
      (get_camera none s).cam = none ∧ (get_camera none s).state.camera = none) ∧
    (∀ (s : AppState) (c : Nat) (o : Option Nat), s.camera = some c →
      get_camera o s = { cam := some c, state := s, attempts := 0 }) := by
  constructor
  · intro s h
    simp [get_camera, h]
  · intro s c o h
    simp [get_camera, h]

/-- Witness for C6 at concrete states. -/
theorem get_camera_contract_witness :
    ((get_camera none initialState).cam = none ∧
      (get_camera none initialState).state.camera = none) ∧
    get_camera (some 3) stateWithCamera
      = { cam := some 7, state := stateWithCamera, attempts := 0 } :=
  ⟨get_camera_contract.1 initialState rfl,
   get_camera_contract.2 stateWithCamera 7 (some 3) rfl⟩

/-- C9: an `enable_object_detection` request that reports status `error`
(capability unavailable or model load failure) leaves the detection-enabled
flag exactly as it was; the flag is only ever set on the `enabled` paths. -/
theorem failed_enable_keeps_flag (installed : Bool) (loadResult : Option Nat) (s : AppState)
    (h : (enable_object_detection installed loadResult s).resp.status = "error") :
    (enable_object_detection installed loadResult s).state.object_detection_enabled
      = s.object_detection_enabled := by
  cases ha : s.OBJECT_DETECTION_AVAILABLE with
  | none =>
    cases installed <;> cases hm : s.object_detection_model <;> cases loadResult <;>
      simp_all [enable_object_detection, check_ultralytics_availability,
        initialize_object_detection_model]
  | some b =>
    cases b <;> cases hm : s.object_detection_model <;> cases loadResult <;>
      simp_all [enable_object_detection, check_ultralytics_availability,
        initialize_object_detection_model]

/-- Witness for C9: a failed enable (capability absent) leaves the flag
cleared. -/
theorem failed_enable_keeps_flag_witness :
    (enable_object_detection false none initialState).state.object_detection_enabled
      = initialState.object_detection_enabled :=
  failed_enable_keeps_flag false none initialState (by decide)

/-- C10: the `/health` handler is read-only: it returns the globals
unchanged, performs no availability check, and when the tri-state is still
unknown it reports `object_detection_available` as `false`. -/
theorem health_read_only (s : AppState) :
    (health s).state = s ∧ (health s).checks = 0 ∧
    (s.OBJECT_DETECTION_AVAILABLE = none →
      (health s).resp.object_detection_available = false) := by
  refine ⟨rfl, rfl, fun h => ?_⟩
  simp [health, h]

/-- Witness for C10 at the post-import state, where availability is still
unknown. -/
theorem health_read_only_witness :
    (health initialState).resp.object_detection_available = false :=
  (health_read_only initialState).2.2 rfl

/-- C3: in a loop iteration where detection is enabled and a model is
loaded, an inference exception is caught: inference was invoked, yet the
chunk emitted carries the original unannotated frame, and the loop goes on
to process the remaining iterations — the exception never terminates the
frame sequence. -/
theorem inference_failure_recovers (e : IterEnv) (es : List IterEnv) (s : AppState)
    (f : Nat) (msg : String)
    (h1 : e.streaming = true)
    (h2 : (s.camera.isSome || e.openResult.isSome) = true)
    (h3 : e.readResult = some f)
    (h4 : s.object_detection_enabled = true)
    (h5 : s.object_detection_model.isSome = true)
    (h6 : e.inferResult = Except.error msg)
    (h7 : e.encodeOk = true) :
    (generate_frames_iter e s).inferInvoked = true ∧
    (generate_frames_iter e s).out = IterOut.emit { payload := f } ∧
    generate_frames (e :: es) s =
      { chunks := { payload := f } ::
          (generate_frames es (generate_frames_iter e s).state).chunks
        state := (generate_frames es (generate_frames_iter e s).state).state
        stopped := (generate_frames es (generate_frames_iter e s).state).stopped } := by
  have hcam : (get_camera e.openResult s).cam.isSome = true := by
    rw [get_camera_cam, h2]
  obtain ⟨c, hc⟩ := Option.isSome_iff_exists.mp hcam
  have hcond : ((get_camera e.openResult s).state.object_detection_enabled &&
      (get_camera e.openResult s).state.object_detection_model.isSome) = true := by
    rw [get_camera_enabled, get_camera_model, h4, h5]
    rfl
  have hout : (generate_frames_iter e s).out = IterOut.emit { payload := f } ∧
      (generate_frames_iter e s).inferInvoked = true := by
    unfold generate_frames_iter
    simp [h1, hc, h3, hcond, h6, h7]
  refine ⟨hout.2, hout.1, ?_⟩
  simp [generate_frames, hout.1]

/-- Witness for C3: an iteration with a raised inference exception still
emits the raw frame read from the camera. -/
theorem inference_failure_recovers_witness :
    (generate_frames_iter failingInferEnv readyState).out
      = IterOut.emit { payload := 11 } :=
  (inference_failure_recovers failingInferEnv [] readyState 11 "boom"
    rfl rfl rfl rfl rfl rfl rfl).2.1

/-- C7: in a frame-loop iteration that reaches the detection check,
inference is invoked exactly when the detection-enabled flag is set AND a
model is loaded; when either condition fails the raw camera frame is
emitted (inference untouched), and when both hold and inference succeeds the
annotated rendering is emitted instead. -/
theorem annotated_only_when_enabled_and_loaded (e : IterEnv) (s : AppState) (f : Nat)
    (h1 : e.streaming = true)
    (h2 : (s.camera.isSome || e.openResult.isSome) = true)
    (h3 : e.readResult = some f) :
    ((generate_frames_iter e s).inferInvoked
      = (s.object_detection_enabled && s.object_detection_model.isSome)) ∧
    ((s.object_detection_enabled && s.object_detection_model.isSome) = false →
      (generate_frames_iter e s).out
        = if e.encodeOk then IterOut.emit { payload := f } else IterOut.skip) ∧
    (∀ a : Nat, (s.object_detection_enabled && s.object_detection_model.isSome) = true →
      e.inferResult = Except.ok a →
      (generate_frames_iter e s).out
        = if e.encodeOk then IterOut.emit { payload := a } else IterOut.skip) := by
  have hcam : (get_camera e.openResult s).cam.isSome = true := by
    rw [get_camera_cam, h2]
  obtain ⟨c, hc⟩ := Option.isSome_iff_exists.mp hcam
  have hen := get_camera_enabled e.openResult s
  have hmo := get_camera_model e.openResult s
  refine ⟨?_, fun hcond => ?_, fun a hcond hinf => ?_⟩
  · unfold generate_frames_iter
    cases hcond : (s.object_detection_enabled && s.object_detection_model.isSome)
    · cases he : e.encodeOk <;> simp [h1, hc, h3, hen, hmo, hcond, he]
    · cases hi : e.inferResult <;> cases he : e.encodeOk <;>
        simp [h1, hc, h3, hen, hmo, hcond, hi, he]
  · unfold generate_frames_iter
    cases he : e.encodeOk <;> simp [h1, hc, h3, hen, hmo, hcond, he]
  · unfold generate_frames_iter
    cases he : e.encodeOk <;> simp [h1, hc, h3, hen, hmo, hcond, hinf, he]

/-- Witness for C7: with detection disabled and no model loaded, the
iteration does not invoke inference. -/
theorem annotated_only_when_enabled_and_loaded_witness :
    (generate_frames_iter goodEnv initialState).inferInvoked
      = (initialState.object_detection_enabled &&
          initialState.object_detection_model.isSome) :=
  (annotated_only_when_enabled_and_loaded goodEnv initialState 11 rfl rfl rfl).1

/-- C8: the frame sequence terminates exactly when the streaming flag is
observed cleared, camera acquisition fails, or a frame read fails; and as
long as every iteration keeps the flag, the camera and the read healthy,
the loop runs through any number of scheduled iterations without
terminating. -/
theorem frame_loop_termination :
    (∀ (e : IterEnv) (s : AppState),
      (generate_frames_iter e s).out = IterOut.stop ↔
        (e.streaming = false ∨ (s.camera.isSome || e.openResult.isSome) = false ∨
          e.readResult = none)) ∧
    (∀ (envs : List IterEnv) (s : AppState), envs.all envKeepsGoing = true →
      (generate_frames envs s).stopped = false) :=
  ⟨generate_frames_iter_stop_iff, generate_frames_all_good⟩

/-- Witness for C8: two healthy iterations leave the loop still running. -/
theorem frame_loop_termination_witness :
    (generate_frames [goodEnv, goodEnv] initialState).stopped = false :=
  frame_loop_termination.2 [goodEnv, goodEnv] initialState (by decide)

/-- C4: a failed model load is not cached negatively. With the capability
available and no model loaded, an enable request whose load fails reports
status `error` and leaves the model unloaded, and a following enable
request whose load succeeds retries the load and reports `enabled` with the
model now loaded. -/
theorem model_load_retry (installed : Bool) (s : AppState) (m : Nat)
    (h1 : s.object_detection_model = none)
    (h2 : (check_ultralytics_availability installed s).avail = true) :
    (enable_object_detection installed none s).resp.status = "error" ∧
    (enable_object_detection installed none s).state.object_detection_model = none ∧
    (enable_object_detection installed (some m)
        ((enable_object_detection installed none s).state)).resp.status = "enabled" ∧
    (enable_object_detection installed (some m)
        ((enable_object_detection installed none s).state)).state.object_detection_model
      = some m := by
  cases ha : s.OBJECT_DETECTION_AVAILABLE with
  | none =>
    cases installed with
    | false => simp [check_ultralytics_availability, ha] at h2
    | true =>
      simp [enable_object_detection, check_ultralytics_availability,
        initialize_object_detection_model, ha, h1]
  | some b =>
    cases b with
    | false => simp [check_ultralytics_availability, ha] at h2
    | true =>
      simp [enable_object_detection, check_ultralytics_availability,
        initialize_object_detection_model, ha, h1]

/-- Witness for C4: from a probed-available state with no model, a failing
load reports `error` and a following successful load reports `enabled`. -/
theorem model_load_retry_witness :
    (enable_object_detection true none probedState).resp.status = "error" ∧
    (enable_object_detection true (some 5)
        ((enable_object_detection true none probedState).state)).resp.status
      = "enabled" := by
  have h := model_load_retry true probedState 5 rfl rfl
  exact ⟨h.1, h.2.2.1⟩

/-- Once the tri-state is cached, no request runs the underlying check and
the cached value survives the request unchanged. -/
theorem opStep_some_avail (op : Op) (s : AppState) (b : Bool)
    (h : s.OBJECT_DETECTION_AVAILABLE = some b) :
    (opStep op s).1.OBJECT_DETECTION_AVAILABLE = some b ∧ (opStep op s).2 = 0 := by
  cases op with
  | startStream =>
    unfold opStep start_stream
    cases hs : s.is_streaming <;> simp [hs, h]
  | stopStream =>
    unfold opStep stop_stream
    cases hs : s.is_streaming <;> simp [hs, h]
  | enableDetection installed loadResult =>
    cases b <;> cases hm : s.object_detection_model <;> cases loadResult <;>
      simp_all [opStep, enable_object_detection, check_ultralytics_availability,
        initialize_object_detection_model]
  | disableDetection =>
    simp [opStep, disable_object_detection, h]
  | healthCheck =>
    simp [opStep, health, h]
  | detectionStatus installed =>
    simp [opStep, object_detection_status, h]
  | videoFeedConn envs =>
    unfold opStep video_feed
    cases hs : s.is_streaming <;> simp [hs, h, cv2_zeros, generate_frames_avail]

/-- From an unknown tri-state, one request runs the underlying check at
most once, and if the tri-state is still unknown afterwards then it ran no
check at all. -/
theorem opStep_none_avail (op : Op) (s : AppState)
    (h : s.OBJECT_DETECTION_AVAILABLE = none) :
    (opStep op s).2 ≤ 1 ∧
    ((opStep op s).1.OBJECT_DETECTION_AVAILABLE = none → (opStep op s).2 = 0) := by
  cases op with
  | startStream =>
    unfold opStep start_stream
    cases hs : s.is_streaming <;> simp [hs]
  | stopStream =>
    unfold opStep stop_stream
    cases hs : s.is_streaming <;> simp [hs]
  | enableDetection installed loadResult =>
    cases installed <;> cases hm : s.object_detection_model <;> cases loadResult <;>
      simp_all [opStep, enable_object_detection, check_ultralytics_availability,
        initialize_object_detection_model]
  | disableDetection => simp [opStep, disable_object_detection]
  | healthCheck => simp [opStep, health]
  | detectionStatus installed =>
    cases installed <;>
      simp_all [opStep, object_detection_status, check_ultralytics_availability]
  | videoFeedConn envs =>
    unfold opStep video_feed
    cases hs : s.is_streaming <;> simp [hs, cv2_zeros]

/-- C5: the capability probe runs its underlying availability check at most
once per process lifetime. Across any request sequence, at most one
underlying check runs (and none at all if the tri-state is already
cached); once cached as `some b`, the value survives every request
unchanged, and every later probe call returns the cached value with no
state change and no check. -/
theorem probe_runs_at_most_once (ops : List Op) (s : AppState) :
    ((runOps ops s).2 ≤ if s.OBJECT_DETECTION_AVAILABLE = none then 1 else 0) ∧
    (∀ b : Bool, s.OBJECT_DETECTION_AVAILABLE = some b →
      (runOps ops s).1.OBJECT_DETECTION_AVAILABLE = some b ∧ (runOps ops s).2 = 0) ∧
    (∀ installed b : Bool, s.OBJECT_DETECTION_AVAILABLE = some b →
      check_ultralytics_availability installed s
        = { avail := b, state := s, checks := 0 }) := by
  induction ops generalizing s with
  | nil =>
    refine ⟨?_, ?_, ?_⟩
    · have hz : (runOps [] s).2 = 0 := rfl
      rw [hz]
      exact Nat.zero_le _
    · intro b hb
      exact ⟨hb, rfl⟩
    · intro installed b hb
      simp [check_ultralytics_availability, hb]
  | cons op ops ih =>
    refine ⟨?_, ?_, ?_⟩
    · cases hav : s.OBJECT_DETECTION_AVAILABLE with
      | some b =>
        obtain ⟨h1, h2⟩ := opStep_some_avail op s b hav
        obtain ⟨h3, h4⟩ := (ih (opStep op s).1).2.1 b h1
        have hsum : (runOps (op :: ops) s).2
            = (opStep op s).2 + (runOps ops (opStep op s).1).2 := rfl
        simp [hsum, h2, h4]
      | none =>
        have hsum : (runOps (op :: ops) s).2
            = (opStep op s).2 + (runOps ops (opStep op s).1).2 := rfl
        obtain ⟨h1, h2⟩ := opStep_none_avail op s hav
        simp only [reduceIte, hsum]
        cases h3 : (opStep op s).1.OBJECT_DETECTION_AVAILABLE with
        | none =>
          have hA := (ih (opStep op s).1).1
          rw [h3] at hA
          simp only [reduceIte] at hA
          have he1 := h2 h3
          omega
        | some c =>
          have hB := (ih (opStep op s).1).2.1 c h3
          have he2 := hB.2
          omega
    · intro b hb
      obtain ⟨h1, h2⟩ := opStep_some_avail op s b hb
      obtain ⟨h3, h4⟩ := (ih (opStep op s).1).2.1 b h1
      refine ⟨?_, ?_⟩
      · show (runOps ops (opStep op s).1).1.OBJECT_DETECTION_AVAILABLE = some b
        exact h3
      · show (opStep op s).2 + (runOps ops (opStep op s).1).2 = 0
        omega
    · intro installed b hb
      simp [check_ultralytics_availability, hb]

/-- Witness for C5: from a cached-available state, a request sequence runs
no check and preserves the cache, and a probe call is a pure cache read. -/
theorem probe_runs_at_most_once_witness :
    ((runOps [Op.healthCheck, Op.startStream] probedState).1.OBJECT_DETECTION_AVAILABLE
        = some true ∧
      (runOps [Op.healthCheck, Op.startStream] probedState).2 = 0) ∧
    check_ultralytics_availability false probedState
      = { avail := true, state := probedState, checks := 0 } :=
  ⟨(probe_runs_at_most_once [Op.healthCheck, Op.startStream] probedState).2.1 true rfl,
   (probe_runs_at_most_once [Op.healthCheck, Op.startStream] probedState).2.2 false true rfl⟩

end WebCamApp
